import Mathlib

/-!
Verification of the AgentOps workflow-orchestration engine and its rate-limited
invocation substrate, as a shallow embedding in Lean 4.

The embedding follows the source modules:
* `src/workflows/orchestrator.py` — the LangGraph state machine (node
  functions, conditional routing, finalization);
* `src/agents/base_agent.py`     — `BaseAgent.think`, the retry/backoff loop
  around the remote-model call;
* `src/utils/rate_limiter.py`    — the sliding-window rate limiter and its
  multi-tier wrapper;
* `src/agents/resolution_agent.py` — plan execution and the approval gate in
  `resolve`.

Modelling conventions:
* Python dict/attribute access is modelled explicitly: a value that may be
  Python `None` is an `Option`; calling `.get` on `None` is an
  `AttributeError`, modelled with `Except PyError`.
* Timestamps and float durations are modelled as exact rationals (`ℚ`);
  machine-float rounding is irrelevant to the properties proved here.
* Remote-agent and tool outcomes are inputs (an `Env`), since they are
  produced by external collaborators; everything the orchestrator itself
  computes is translated from the source.
* Logging calls, message-history entries and tracing are elided: no claim
  reads them.
-/

namespace AgentOps

/-- Python-level failures that the embedded code can raise.  `attributeError`
is what CPython raises for an attribute access on `None`; `exception` covers
`raise Exception(...)`; the remaining constructors mirror the failure kinds
named by the code (`anthropic.RateLimitError`, `anthropic.APIError`, and a
LangGraph routing-label lookup failure). -/
inductive PyError where
  | attributeError (msg : String)
  | exception (msg : String)
  | rateLimitError
  | apiError (msg : String)
  | keyError (msg : String)
deriving DecidableEq, Repr

/-- The `WorkflowStatus` enum of `orchestrator.py` (its string `.value` is
what the state dict stores). -/
inductive WorkflowStatus where
  | pending
  | triaging
  | resolving
  | escalating
  | awaitingApproval
  | completed
  | failed
deriving DecidableEq, Repr

/-- `.value` of the `WorkflowStatus` enum members. -/
def WorkflowStatus.val : WorkflowStatus → String
  | .pending => "pending"
  | .triaging => "triaging"
  | .resolving => "resolving"
  | .escalating => "escalating"
  | .awaitingApproval => "awaiting_approval"
  | .completed => "completed"
  | .failed => "failed"

/-- The triage-result dict as read by the orchestrator
(`result.model_dump()` of a `TriageResult`).  Only the `decision` key is read
by the routing code; `decision` is an `Option` because `_route_after_triage`
reads it with `dict.get("decision", "agent_resolution")`, which tolerates a
missing key (an actual `model_dump` always sets it).  The remaining fields
(category, priority, confidence, rationale) are never read by the routing or
finalization logic modelled here. -/
structure TriageDump where
  decision : Option String
deriving DecidableEq, Repr

/-- One step of a resolution plan (`ResolutionStep` in
`resolution_agent.py`), restricted to the fields `_execute_plan` and
`resolve` read: the 1-based `step_number` assigned by the plan parser, the
`action` text, and the optional `tool_name`.  (`tool_parameters`,
`expected_outcome` and the mutable outcome fields do not influence control
flow.) -/
structure PlanStep where
  step_number : Nat
  action : String
  tool_name : Option String
deriving DecidableEq, Repr

/-- The `ResolutionResult` pydantic model of `resolution_agent.py`, with the
executed steps paired with the boolean `success` that `_execute_plan` wrote
into them.  `total_execution_time_seconds` is an exact rational. -/
structure ResolutionResult where
  ticket_id : String
  success : Bool
  resolution_summary : String
  steps_executed : List (PlanStep × Bool)
  total_execution_time_seconds : ℚ
  actions_taken : List String
  user_communication : Option String
  follow_up_required : Bool
  escalation_reason : Option String
deriving DecidableEq, Repr

/-- The nodes of the LangGraph workflow built in `_build_graph`. -/
inductive Node where
  | triage
  | resolve
  | complianceCheck
  | escalate
  | requestInfo
  | finalize
deriving DecidableEq, Repr

/-- The `OrchestratorState` TypedDict, restricted to the fields that the node
functions and routing functions of `orchestrator.py` read or write.
`resolution_result`, `triage_result`, `compliance_result` and
`escalation_reason` are `Option`s because `run()` initialises them to Python
`None`.  (`messages`, `current_agent`, ticket metadata and timestamps are
write-only bookkeeping, elided.) -/
structure OState where
  status : String
  iteration_count : Nat
  max_iterations : Nat
  triage_result : Option TriageDump
  resolution_result : Option ResolutionResult
  compliance_result : Option Bool
  requires_human : Bool
  escalation_reason : Option String
  actions_taken : List String
deriving DecidableEq, Repr

/-- The literal `routing` dict of `_route_after_triage`, read with
`routing.get(decision, "agent_resolution")`. -/
def routing_get (decision : String) : String :=
  if decision = "auto_resolve" then "auto_resolve"
  else if decision = "agent_resolution" then "agent_resolution"
  else if decision = "human_escalation" then "human_escalation"
  else if decision = "information_request" then "information_request"
  else "agent_resolution"

/-- `AgentOrchestrator._route_after_triage`.  The source reads
`state.get("triage_result", {})`; since `run()` stores the key with value
`None`, a `None` triage result reaches `.get("decision", ...)` and raises
`AttributeError` (the `{}` default never fires: the key is always present).
Otherwise the decision code is looked up in the `routing` dict, defaulting to
`"agent_resolution"`. -/
def route_after_triage (triage_result : Option TriageDump) : Except PyError String :=
  match triage_result with
  | none => .error (.attributeError "NoneType object has no attribute get")
  | some tr => .ok (routing_get (tr.decision.getD "agent_resolution"))

/-- `AgentOrchestrator._route_after_compliance`:
`compliance_result.get("approved", False)`. -/
def route_after_compliance (compliance_result : Option Bool) : Except PyError String :=
  match compliance_result with
  | none => .error (.attributeError "NoneType object has no attribute get")
  | some approved => .ok (if approved then "approved" else "denied")

/-- `AgentOrchestrator._route_after_resolution`: success routes to
`"success"`; otherwise `"retry"` while `iteration_count < max_iterations`
(strict), else `"escalate"`.  A `None` resolution result would raise
`AttributeError` exactly as in `_route_after_triage`. -/
def route_after_resolution (resolution_result : Option ResolutionResult)
    (iteration max_iterations : Nat) : Except PyError String :=
  match resolution_result with
  | none => .error (.attributeError "NoneType object has no attribute get")
  | some rr =>
    .ok (if rr.success then "success"
         else if iteration < max_iterations then "retry"
         else "escalate")

/-- The conditional-edge dict attached to the `triage` node in
`_build_graph`. -/
def triageEdges (label : String) : Option Node :=
  if label = "auto_resolve" then some .resolve
  else if label = "agent_resolution" then some .complianceCheck
  else if label = "human_escalation" then some .escalate
  else if label = "information_request" then some .requestInfo
  else none

/-- The conditional-edge dict attached to the `compliance_check` node. -/
def complianceEdges (label : String) : Option Node :=
  if label = "approved" then some .resolve
  else if label = "denied" then some .escalate
  else none

/-- The conditional-edge dict attached to the `resolve` node. -/
def resolveEdges (label : String) : Option Node :=
  if label = "success" then some .finalize
  else if label = "retry" then some .resolve
  else if label = "escalate" then some .escalate
  else none

/-- Outcomes supplied by the external stage agents during one workflow run.
`resolveOutcomes i` is what `resolution_agent.resolve` produces on its
`i`-th invocation (counting from 0, i.e. when `iteration_count = i` on entry
to the resolve node); an `Except.error` models the agent raising. -/
structure Env where
  triageOutcome : Except PyError TriageDump
  complianceOutcome : Except PyError Bool
  resolveOutcomes : Nat → Except PyError ResolutionResult

/-- `AgentOrchestrator._finalize_node`, the terminal-status computation.
Source order: start from `COMPLETED`; if `requires_human` then `ESCALATING`;
`elif state.get("resolution_result", {}).get("success") is False` then
`FAILED`.  When `requires_human` is falsy and the stored resolution result is
Python `None` (as `run()` initialised it), the `elif` expression calls
`.get` on `None` and raises `AttributeError` — the `{}` default never fires
because the key is present. -/
def finalize_status (requires_human : Bool) (resolution_result : Option ResolutionResult) :
    Except PyError WorkflowStatus :=
  if requires_human then .ok .escalating
  else
    match resolution_result with
    | none => .error (.attributeError "NoneType object has no attribute get")
    | some rr => .ok (if rr.success = false then .failed else .completed)

/-- The state update returned by `_triage_node` on a successful triage call
(`messages` elided; the action string uses the decision's enum value, always
present on an actual `TriageResult`). -/
def triage_node (r : TriageDump) (s : OState) : OState :=
  { s with
    status := WorkflowStatus.triaging.val
    triage_result := some r
    actions_taken := s.actions_taken ++ ["Triage: " ++ r.decision.getD ""] }

/-- The state update returned by `_compliance_node` on a successful
validation call. -/
def compliance_node (b : Bool) (s : OState) : OState :=
  { s with
    compliance_result := some b
    actions_taken := s.actions_taken ++
      ["Compliance: " ++ (if b then "Approved" else "Requires Review")] }

/-- The state update returned by `_resolve_node` on a successful resolution
call: `iteration_count` becomes `state.get("iteration_count", 0) + 1` and
the attempt's result and actions are recorded. -/
def resolve_node (rr : ResolutionResult) (s : OState) : OState :=
  { s with
    status := WorkflowStatus.resolving.val
    iteration_count := s.iteration_count + 1
    resolution_result := some rr
    actions_taken := s.actions_taken ++ rr.actions_taken }

/-- The state update returned by `_escalate_node`. -/
def escalate_node (s : OState) : OState :=
  let reason := s.escalation_reason.getD "Requires human expertise"
  { s with
    status := WorkflowStatus.escalating.val
    requires_human := true
    escalation_reason := some reason
    actions_taken := s.actions_taken ++ ["Escalated to human: " ++ reason] }

/-- The state update returned by `_request_info_node`. -/
def request_info_node (s : OState) : OState :=
  { s with
    status := WorkflowStatus.awaitingApproval.val
    actions_taken := s.actions_taken ++ ["Requested additional information"] }

/-- One LangGraph superstep: execute the node function on the state, merge
the returned partial update (accumulating `actions_taken`, last-value
semantics for the other channels), then follow the node's outgoing edge —
conditional edges call the `_route_after_*` function on the updated state and
look the label up in the edge dict; `escalate`, `request_info` and
`finalize` have unconditional edges (`finalize → END`, returned as `none`).
A node function that raises propagates its error: `orchestrator.py` contains
no try/except. -/
def step (env : Env) : Node → OState → Except PyError (Option Node × OState)
  | .triage, s =>
    match env.triageOutcome with
    | .error e => .error e
    | .ok r =>
      let s2 := triage_node r s
      match route_after_triage s2.triage_result with
      | .error e => .error e
      | .ok label =>
        match triageEdges label with
        | some n => .ok (some n, s2)
        | none => .error (.keyError label)
  | .complianceCheck, s =>
    match env.complianceOutcome with
    | .error e => .error e
    | .ok b =>
      let s2 := compliance_node b s
      match route_after_compliance s2.compliance_result with
      | .error e => .error e
      | .ok label =>
        match complianceEdges label with
        | some n => .ok (some n, s2)
        | none => .error (.keyError label)
  | .resolve, s =>
    match env.resolveOutcomes s.iteration_count with
    | .error e => .error e
    | .ok rr =>
      let s2 := resolve_node rr s
      match route_after_resolution s2.resolution_result s2.iteration_count s2.max_iterations with
      | .error e => .error e
      | .ok label =>
        match resolveEdges label with
        | some n => .ok (some n, s2)
        | none => .error (.keyError label)
  | .escalate, s => .ok (some .finalize, escalate_node s)
  | .requestInfo, s => .ok (some .finalize, request_info_node s)
  | .finalize, s =>
    match finalize_status s.requires_human s.resolution_result with
    | .error e => .error e
    | .ok st => .ok (none, { s with status := st.val })

/-- Drive the graph from a node until `END`, an error, or fuel exhaustion
(`.ok none`; the only cycle, resolve-retry, is bounded by
`max_iterations`, so sufficient fuel always reaches `END`). -/
def runGraph (env : Env) : Nat → Node → OState → Except PyError (Option OState)
  | 0, _, _ => .ok none
  | fuel + 1, n, s =>
    match step env n s with
    | .error e => .error e
    | .ok (none, s2) => .ok (some s2)
    | .ok (some n2, s2) => runGraph env fuel n2 s2

/-- The initial `OrchestratorState` built by `run()`: pending status, zero
iterations, all stage results `None`, `requires_human = False`. -/
def initState (max_iterations : Nat) : OState :=
  { status := WorkflowStatus.pending.val
    iteration_count := 0
    max_iterations := max_iterations
    triage_result := none
    resolution_result := none
    compliance_result := none
    requires_human := false
    escalation_reason := none
    actions_taken := [] }

/-- The fields of the `WorkflowResult` that `run()` assembles from the final
state (duration and the per-stage result copies are elided). -/
structure WorkflowResultL where
  status : String
  iteration_count : Nat
  escalated : Bool
  escalation_reason : Option String
  actions_taken : List String
deriving DecidableEq, Repr

/-- `AgentOrchestrator.run`: invoke the compiled graph on the initial state
and package the final state.  `run` itself wraps nothing in try/except, so an
error from any node propagates to the caller unchanged and no result is
produced (nor stored in `_workflow_results`). -/
def orchestrator_run (env : Env) (max_iterations fuel : Nat) :
    Except PyError (Option WorkflowResultL) :=
  match runGraph env fuel .triage (initState max_iterations) with
  | .error e => .error e
  | .ok none => .ok none
  | .ok (some s) =>
    .ok (some
      { status := s.status
        iteration_count := s.iteration_count
        escalated := s.requires_human
        escalation_reason := s.escalation_reason
        actions_taken := s.actions_taken })

/-- Outcome of one `client.messages.create` call inside `BaseAgent.think`,
as classified by the except clauses of the source: success (with response
text and token usage), `RateLimitError`, `APIError`, or any other
exception. -/
inductive ApiOutcome where
  | success (text : String) (input_tokens output_tokens : Nat)
  | rateLimit
  | apiErr (msg : String)
  | other (msg : String)

/-- The capacity-exceeded backoff of `think`:
`wait_time = min(2 ** attempt * 10, 60)` seconds (base 10, cap 60). -/
def backoff_wait (attempt : Nat) : Nat := min (2 ^ attempt * 10) 60

/-- The `for attempt in range(max_retries)` loop of `BaseAgent.think`,
with the sleeps performed so far accumulated.  Per the source: a successful
call returns its text; `RateLimitError` sleeps `backoff_wait attempt` and
retries; `APIError` re-raises unchanged on the final attempt
(`attempt == max_retries - 1`) and otherwise sleeps `2 ** attempt` and
retries; any other exception re-raises immediately; falling off the end of
the loop raises a fresh `Exception("Failed after N retries")`.  (The rate
limiter `acquire`/`record_tokens` calls around the API call are modelled
separately in the limiter section.) -/
def thinkLoop (outcomes : Nat → ApiOutcome) (max_retries : Nat) (attempt : Nat)
    (sleeps : List Nat) : List Nat × Except PyError String :=
  if _h : attempt < max_retries then
    match outcomes attempt with
    | .success t _ _ => (sleeps, .ok t)
    | .rateLimit => thinkLoop outcomes max_retries (attempt + 1) (sleeps ++ [backoff_wait attempt])
    | .apiErr m =>
      if attempt = max_retries - 1 then (sleeps, .error (.apiError m))
      else thinkLoop outcomes max_retries (attempt + 1) (sleeps ++ [2 ^ attempt])
    | .other m => (sleeps, .error (.exception m))
  else (sleeps, .error (.exception ("Failed after " ++ toString max_retries ++ " retries")))
termination_by max_retries - attempt

/-- `BaseAgent.think`: run the retry loop from attempt 0.  Returns the list
of sleep durations performed and the final outcome. -/
def think (max_retries : Nat) (outcomes : Nat → ApiOutcome) :
    List Nat × Except PyError String :=
  thinkLoop outcomes max_retries 0 []

/-- `RateLimiter._cleanup_old_entries`, request window: pop from the left
while the head is strictly older than `window_start`. -/
def cleanup_requests (window_start : ℚ) : List ℚ → List ℚ
  | [] => []
  | t :: rest => if t < window_start then cleanup_requests window_start rest else t :: rest

/-- `RateLimiter._cleanup_old_entries`, token window: pop from the left
while the head's timestamp is strictly older than `window_start`. -/
def cleanup_tokens (window_start : ℚ) : List (ℚ × Nat) → List (ℚ × Nat)
  | [] => []
  | e :: rest => if e.1 < window_start then cleanup_tokens window_start rest else e :: rest

/-- `RateLimiter._get_current_token_usage`:
`sum(tokens for _, tokens in self._token_usage)`. -/
def usage_sum (l : List (ℚ × Nat)) : Nat := (l.map Prod.snd).sum

/-- `RateLimiter._calculate_wait_time`:
`max(0.1, (oldest_time + 60s) - now)` in seconds. -/
def calculate_wait_time (oldest now : ℚ) : ℚ := max (1 / 10) (oldest + 60 - now)

/-- Rate-limiter configuration (`RateLimiter.__init__` arguments). -/
structure LimiterConfig where
  requests_per_minute : Nat
  tokens_per_minute : Nat
  max_wait_seconds : ℚ
deriving DecidableEq, Repr

/-- The mutable windows of one `RateLimiter`: the request-time deque and the
(timestamp, token_count) deque, oldest first. -/
structure LimiterState where
  request_times : List ℚ
  token_usage : List (ℚ × Nat)
deriving DecidableEq, Repr

/-- What one iteration of `acquire`'s `while True` body decides to do:
sleep for `wait` seconds and re-check (with the blocked dimension and
whether the max-wait warning was logged), let the call pass, or crash —
`self._request_times[0]` raises `IndexError` when the request window is
empty yet `len >= requests_per_minute` (only possible when the configured
ceiling is zero). -/
inductive AcquireAction where
  | sleep (wait : ℚ) (reason : String) (breach_logged : Bool)
  | admitted
  | indexError
deriving DecidableEq, Repr

/-- One iteration of the `while True` loop in `RateLimiter.acquire`:
compute `window_start = now - 60s`, prune both windows, then check the
request ceiling and the token ceiling in that order; a blocked check
computes the wait to the oldest entry's expiry, truncates it to
`max_wait_seconds` when it exceeds it (logging the breach in the
request-rate branch), and sleeps; otherwise the request is admitted by
appending `now` to the request window.  Returns the action and the pruned
(and on admission, appended) state. -/
def acquire_check (cfg : LimiterConfig) (now : ℚ) (st : LimiterState) :
    AcquireAction × LimiterState :=
  let ws := now - 60
  let reqs := cleanup_requests ws st.request_times
  let toks := cleanup_tokens ws st.token_usage
  if cfg.requests_per_minute ≤ reqs.length then
    match reqs with
    | [] => (.indexError, ⟨reqs, toks⟩)
    | oldest :: _ =>
      let wt := calculate_wait_time oldest now
      if cfg.max_wait_seconds < wt then (.sleep cfg.max_wait_seconds "rpm" true, ⟨reqs, toks⟩)
      else (.sleep wt "rpm" false, ⟨reqs, toks⟩)
  else if cfg.tokens_per_minute ≤ usage_sum toks then
    let oldest := match toks with | [] => now | e :: _ => e.1
    let wt := calculate_wait_time oldest now
    if cfg.max_wait_seconds < wt then (.sleep cfg.max_wait_seconds "tpm" false, ⟨reqs, toks⟩)
    else (.sleep wt "tpm" false, ⟨reqs, toks⟩)
  else (.admitted, ⟨reqs ++ [now], toks⟩)

/-- The full `acquire` loop, on an otherwise-idle clock: after each sleep,
`now` has advanced by exactly the slept duration and the body re-runs.
Returns the sleeps performed and, on admission, the resulting windows
(`none`: fuel ran out before admission, or the zero-ceiling `IndexError`). -/
def acquireLoop (cfg : LimiterConfig) : Nat → ℚ → LimiterState → List ℚ × Option LimiterState
  | 0, _, _ => ([], none)
  | fuel + 1, now, st =>
    match acquire_check cfg now st with
    | (.admitted, st2) => ([], some st2)
    | (.sleep w _ _, st2) =>
      let r := acquireLoop cfg fuel (now + w) st2
      (w :: r.1, r.2)
    | (.indexError, _) => ([], none)

/-- `RateLimiter.record_tokens`: append `(now, token_count)` to the token
window; the request window is untouched. -/
def record_tokens (now : ℚ) (token_count : Nat) (st : LimiterState) : LimiterState :=
  ⟨st.request_times, st.token_usage ++ [(now, token_count)]⟩

/-- The state of a `MultiTierRateLimiter`: the global limiter plus the
`_user_limiters` dict, modelled as an insertion-ordered association list. -/
structure MultiTierState where
  global_limiter : LimiterState
  user_limiters : List (String × LimiterState)
deriving DecidableEq, Repr

/-- Python `user_id in self._user_limiters`. -/
def mt_contains (users : List (String × LimiterState)) (user_id : String) : Bool :=
  users.any (fun p => p.1 = user_id)

/-- The get-or-create section of `MultiTierRateLimiter.acquire`: lazily
create the per-user limiter (fresh empty windows) on first use, never
remove. -/
def mt_ensure_user (mt : MultiTierState) (user_id : String) : MultiTierState :=
  if mt_contains mt.user_limiters user_id then mt
  else { mt with user_limiters := mt.user_limiters ++ [(user_id, ⟨[], []⟩)] }

/-- `MultiTierRateLimiter.record_tokens`: always record against the global
limiter; record against the per-user limiter only `if user_id in
self._user_limiters` — it is never created here. -/
def mt_record_tokens (mt : MultiTierState) (user_id : String) (now : ℚ) (n : Nat) :
    MultiTierState :=
  { global_limiter := record_tokens now n mt.global_limiter
    user_limiters :=
      if mt_contains mt.user_limiters user_id then
        mt.user_limiters.map (fun p => if p.1 = user_id then (p.1, record_tokens now n p.2) else p)
      else mt.user_limiters }

/-- The `MAX_ITERATIONS` class constant of `ResolutionAgent`, bounding the
number of executed plan steps per attempt. -/
def RESOLUTION_MAX_ITERATIONS : Nat := 10

/-- The success value `_execute_plan` assigns to one step:
`if step.tool_name and step.tool_name in self.tools`, the registered tool is
executed and its success is recorded (`toolResult`, an input: tool outcomes
come from the remediation engine); otherwise — no tool name, an empty
(falsy) tool name, or an unregistered tool — the step is marked successful
("Step noted"). -/
def stepOutcome (registered : List String) (toolResult : PlanStep → Bool)
    (stp : PlanStep) : Bool :=
  match stp.tool_name with
  | none => true
  | some t => if t = "" then true else if t ∈ registered then toolResult stp else true

/-- Whether `_execute_plan` actually invokes a remediation tool for this
step (the `if step.tool_name and step.tool_name in self.tools` guard). -/
def stepInvokesTool (registered : List String) (stp : PlanStep) : Bool :=
  match stp.tool_name with
  | none => false
  | some t => if t = "" then false else decide (t ∈ registered)

/-- The loop of `ResolutionAgent._execute_plan` with the executed steps
accumulated in order: stop when `MAX_ITERATIONS` steps have been executed;
execute the step and append it with its success flag; then
`if step.success is False and step.step_number == 1: break` — a failure of
the step numbered 1 stops the attempt immediately, any other outcome
continues with the remaining steps. -/
def executePlanAux (registered : List String) (toolResult : PlanStep → Bool) :
    List PlanStep → List (PlanStep × Bool) → List (PlanStep × Bool)
  | [], acc => acc
  | stp :: rest, acc =>
    if RESOLUTION_MAX_ITERATIONS ≤ acc.length then acc
    else
      let ok := stepOutcome registered toolResult stp
      let acc2 := acc ++ [(stp, ok)]
      if ok = false ∧ stp.step_number = 1 then acc2
      else executePlanAux registered toolResult rest acc2

/-- `ResolutionAgent._execute_plan` on a plan's steps. -/
def execute_plan (registered : List String) (toolResult : PlanStep → Bool)
    (steps : List PlanStep) : List (PlanStep × Bool) :=
  executePlanAux registered toolResult steps []

/-- A resolution plan (`ResolutionPlan`), restricted to the fields
`resolve` reads: ticket id, summary, steps, and the approval gate parsed
from the model output.  (`estimated_duration_minutes`,
`requires_user_interaction` and `confidence_score` do not influence
`resolve`'s control flow.) -/
structure ResolutionPlanL where
  ticket_id : String
  summary : String
  steps : List PlanStep
  requires_approval : Bool
deriving Repr

/-- `ResolutionAgent.resolve` from the point where the plan is available
(knowledge retrieval and plan creation are external-collaborator calls whose
product is the `plan` argument).  If `plan.requires_approval`, return the
fixed approval-escalation result before `_execute_plan` is ever called;
otherwise execute the plan, compute overall success as the conjunction of
the executed steps' success flags (every executed step has a non-`None`
success, so the source's `is not None` filter keeps them all), and assemble
the result.  The second component is the list of steps for which a
remediation tool was actually invoked; `exec_time` and `user_message` stand
for the wall-clock duration and the generated user communication. -/
def agent_resolve (plan : ResolutionPlanL) (registered : List String)
    (toolResult : PlanStep → Bool) (exec_time : ℚ) (user_message : Option String) :
    ResolutionResult × List PlanStep :=
  if plan.requires_approval then
    ({ ticket_id := plan.ticket_id
       success := false
       resolution_summary := "Resolution plan requires human approval"
       steps_executed := []
       total_execution_time_seconds := 0
       actions_taken := ["Created resolution plan"]
       user_communication := none
       follow_up_required := false
       escalation_reason := some "Actions require human approval" }, [])
  else
    let executed := execute_plan registered toolResult plan.steps
    let ok := executed.all (fun p => p.2)
    ({ ticket_id := plan.ticket_id
       success := ok
       resolution_summary := if ok then plan.summary else "Resolution incomplete"
       steps_executed := executed
       total_execution_time_seconds := exec_time
       actions_taken := (executed.filter (fun p => p.2)).map (fun p => p.1.action)
       user_communication := user_message
       follow_up_required := !ok
       escalation_reason := if ok then none else some "One or more steps failed" },
     (executed.filter (fun p => stepInvokesTool registered p.1)).map Prod.fst)

/-- A failing remediation attempt, with the fields `resolve` gives an
unsuccessful attempt (concrete scenario input). -/
def rrFail : ResolutionResult :=
  { ticket_id := "TCK-1"
    success := false
    resolution_summary := "Resolution incomplete"
    steps_executed := []
    total_execution_time_seconds := 0
    actions_taken := ["Run general diagnostic"]
    user_communication := none
    follow_up_required := true
    escalation_reason := some "One or more steps failed" }

/-- A successful remediation attempt (concrete scenario input). -/
def rrOk : ResolutionResult :=
  { ticket_id := "TCK-1"
    success := true
    resolution_summary := "Default resolution plan for other"
    steps_executed := []
    total_execution_time_seconds := 0
    actions_taken := ["Run general diagnostic"]
    user_communication := some "resolved"
    follow_up_required := false
    escalation_reason := none }

/-- Scenario: triage decides `information_request`; the resolution agent is
never reached. -/
def envInfoRequest : Env :=
  { triageOutcome := .ok { decision := some "information_request" }
    complianceOutcome := .ok true
    resolveOutcomes := fun _ => .ok rrFail }

/-- Scenario: the triage agent raises an exception. -/
def envTriageRaises : Env :=
  { triageOutcome := .error (.exception "triage agent failure")
    complianceOutcome := .ok true
    resolveOutcomes := fun _ => .ok rrFail }

/-- Scenario: triage decides `auto_resolve` and every remediation attempt
fails. -/
def envAllFail : Env :=
  { triageOutcome := .ok { decision := some "auto_resolve" }
    complianceOutcome := .ok true
    resolveOutcomes := fun _ => .ok rrFail }

/-!
## Theorems

The claim theorems below settle the spec's claims against the embedded
code; the unlabelled theorems are shared helper lemmas.
-/

/-- Claim C7: routing after the triage stage is a pure function of the
decision code: `auto_resolve` routes to the resolve node, `agent_resolution`
to the policy-validation (compliance) node, `human_escalation` to the
escalate node, `information_request` to the request-info node, and every
unknown or missing decision code routes to `agent_resolution`, never to
`auto_resolve`. -/
theorem c7_route_after_triage :
    (route_after_triage (some ⟨some "auto_resolve"⟩) = .ok "auto_resolve"
      ∧ triageEdges "auto_resolve" = some Node.resolve) ∧
    (route_after_triage (some ⟨some "agent_resolution"⟩) = .ok "agent_resolution"
      ∧ triageEdges "agent_resolution" = some Node.complianceCheck) ∧
    (route_after_triage (some ⟨some "human_escalation"⟩) = .ok "human_escalation"
      ∧ triageEdges "human_escalation" = some Node.escalate) ∧
    (route_after_triage (some ⟨some "information_request"⟩) = .ok "information_request"
      ∧ triageEdges "information_request" = some Node.requestInfo) ∧
    route_after_triage (some ⟨none⟩) = .ok "agent_resolution" ∧
    (∀ d : String, d ≠ "auto_resolve" → d ≠ "agent_resolution" →
      d ≠ "human_escalation" → d ≠ "information_request" →
      route_after_triage (some ⟨some d⟩) = .ok "agent_resolution" ∧
      route_after_triage (some ⟨some d⟩) ≠ .ok "auto_resolve") := by
  refine ⟨⟨rfl, rfl⟩, ⟨rfl, rfl⟩, ⟨rfl, rfl⟩, ⟨rfl, rfl⟩, rfl, ?_⟩
  intro d h1 h2 h3 h4
  have he : route_after_triage (some ⟨some d⟩) = .ok "agent_resolution" := by
    simp [route_after_triage, routing_get, h1, h2, h3, h4]
  refine ⟨he, ?_⟩
  rw [he]
  intro hcontra
  exact absurd (Except.ok.inj hcontra) (by decide)

/-- Witness for C7 at the unknown decision code "frobnicate". -/
theorem c7_route_after_triage_witness :
    route_after_triage (some ⟨some "frobnicate"⟩) = .ok "agent_resolution" ∧
    route_after_triage (some ⟨some "frobnicate"⟩) ≠ .ok "auto_resolve" :=
  c7_route_after_triage.2.2.2.2.2 "frobnicate"
    (by decide) (by decide) (by decide) (by decide)

/-- Claim C5, counterexample: with `now = 100` the window boundary is `40`;
an entry with timestamp exactly `40` is *not* removed by pruning — it is
retained and still counted in the in-window call count and usage sum,
contradicting the claim that a boundary entry is treated as expired. -/
theorem c5_boundary_entry_retained_counterexample :
    cleanup_requests (100 - 60) [40, 70] = [40, 70] ∧
    (cleanup_requests (100 - 60) [40, 70]).length = 2 ∧
    cleanup_tokens (100 - 60) [(40, 7), (70, 5)] = [(40, 7), (70, 5)] ∧
    usage_sum (cleanup_tokens (100 - 60) [(40, 7), (70, 5)]) = 12 := by
  refine ⟨?_, ?_, ?_, ?_⟩ <;> norm_num [cleanup_requests, cleanup_tokens, usage_sum]

/-- Claim C5 (amended): the window boundary is exactly now − 60 s, but an
entry whose timestamp is exactly at the boundary is treated as still
in-window: pruning removes only strictly older entries, and a boundary entry
remains in the pruned window and keeps contributing to the call count and
the usage sum. -/
theorem c5_boundary_semantics (now : ℚ) :
    (∀ rest : List ℚ,
      cleanup_requests (now - 60) ((now - 60) :: rest) = (now - 60) :: rest) ∧
    (∀ (t : ℚ) (rest : List ℚ), t < now - 60 →
      cleanup_requests (now - 60) (t :: rest) = cleanup_requests (now - 60) rest) ∧
    (∀ (w : Nat) (rest : List (ℚ × Nat)),
      cleanup_tokens (now - 60) ((now - 60, w) :: rest) = (now - 60, w) :: rest) ∧
    (∀ (w : Nat) (rest : List (ℚ × Nat)),
      usage_sum (cleanup_tokens (now - 60) ((now - 60, w) :: rest)) = w + usage_sum rest) ∧
    (∀ (t : ℚ) (w : Nat) (rest : List (ℚ × Nat)), t < now - 60 →
      cleanup_tokens (now - 60) ((t, w) :: rest) = cleanup_tokens (now - 60) rest) := by
  refine ⟨?_, ?_, ?_, ?_, ?_⟩
  · intro rest
    simp [cleanup_requests]
  · intro t rest ht
    simp [cleanup_requests, ht]
  · intro w rest
    simp [cleanup_tokens]
  · intro w rest
    simp [cleanup_tokens, usage_sum]
  · intro t w rest ht
    simp [cleanup_tokens, ht]

/-- Witness for C5 (amended) at `now = 100`, boundary entry `40`, stale
entry `30`. -/
theorem c5_boundary_semantics_witness :
    cleanup_requests (100 - 60) ((100 - 60) :: [50]) = (100 - 60) :: [50] ∧
    ((30 : ℚ) < 100 - 60 ∧
      cleanup_requests (100 - 60) (30 :: [50]) = cleanup_requests (100 - 60) [50]) :=
  ⟨(c5_boundary_semantics 100).1 [50],
   by norm_num, (c5_boundary_semantics 100).2.1 30 [50] (by norm_num)⟩

/-- Keys of the per-user limiter dict are unchanged by the value-updating
map in `mt_record_tokens`. -/
theorem mt_update_keys (users : List (String × LimiterState)) (user_id : String)
    (now : ℚ) (n : Nat) :
    (users.map
        (fun p => if p.1 = user_id then (p.1, record_tokens now n p.2) else p)).map
      Prod.fst = users.map Prod.fst := by
  induction users with
  | nil => rfl
  | cons p ps ih =>
    simp only [List.map_cons]
    rw [ih]
    congr 1
    split <;> rfl

/-- Claim C9: `MultiTierRateLimiter.record_tokens` always appends the usage
entry to the global limiter's token window, updates a per-user limiter only
when it already exists, never creates one (the key set is unchanged), leaves
the whole per-user map unchanged for a caller who never passed `acquire`
(i.e. has no limiter), and leaves every other user's limiter untouched. -/
theorem c9_mt_record_tokens (mt : MultiTierState) (user_id : String) (now : ℚ) (n : Nat) :
    (mt_record_tokens mt user_id now n).global_limiter
      = record_tokens now n mt.global_limiter ∧
    ((mt_record_tokens mt user_id now n).global_limiter).token_usage
      = mt.global_limiter.token_usage ++ [(now, n)] ∧
    (mt_record_tokens mt user_id now n).user_limiters.map Prod.fst
      = mt.user_limiters.map Prod.fst ∧
    (mt_contains mt.user_limiters user_id = false →
      (mt_record_tokens mt user_id now n).user_limiters = mt.user_limiters) ∧
    (∀ p, p ∈ (mt_record_tokens mt user_id now n).user_limiters → p.1 ≠ user_id →
      p ∈ mt.user_limiters) := by
  refine ⟨rfl, rfl, ?_, ?_, ?_⟩
  · simp only [mt_record_tokens]
    split
    · exact mt_update_keys mt.user_limiters user_id now n
    · rfl
  · intro hc
    simp [mt_record_tokens, hc]
  · intro p hp hne
    simp only [mt_record_tokens] at hp
    rcases hq : mt_contains mt.user_limiters user_id with _ | _
    · rwa [if_neg (by simp [hq])] at hp
    · rw [if_pos (by simp [hq])] at hp
      rcases List.mem_map.mp hp with ⟨q, hq2, hq3⟩
      by_cases hqe : q.1 = user_id
      · rw [if_pos hqe] at hq3
        exact absurd (by rw [← hq3]; exact hqe) hne
      · rw [if_neg hqe] at hq3
        rwa [← hq3]

/-- Witness for C9: the user "alice" has no limiter yet, so only the global
window changes. -/
theorem c9_mt_record_tokens_witness :
    (mt_record_tokens ⟨⟨[], []⟩, []⟩ "alice" 5 120).user_limiters
      = (⟨⟨[], []⟩, []⟩ : MultiTierState).user_limiters :=
  (c9_mt_record_tokens ⟨⟨[], []⟩, []⟩ "alice" 5 120).2.2.2.1 rfl

/-- Claim C10: whenever the parsed resolution plan has
`requires_approval = True`, `resolve` returns `success = False`, an empty
`steps_executed` list and escalation reason "Actions require human
approval", and no remediation tool is executed in that attempt. -/
theorem c10_approval_gate (plan : ResolutionPlanL) (registered : List String)
    (toolResult : PlanStep → Bool) (exec_time : ℚ) (user_message : Option String)
    (happ : plan.requires_approval = true) :
    (agent_resolve plan registered toolResult exec_time user_message).1.success = false ∧
    (agent_resolve plan registered toolResult exec_time user_message).1.steps_executed = [] ∧
    (agent_resolve plan registered toolResult exec_time user_message).1.escalation_reason
      = some "Actions require human approval" ∧
    (agent_resolve plan registered toolResult exec_time user_message).2 = [] := by
  simp [agent_resolve, happ]

/-- Witness for C10 on a concrete approval-gated plan. -/
theorem c10_approval_gate_witness :
    (agent_resolve
        ⟨"TCK-2", "Reset password", [⟨1, "Reset password", some "reset_password"⟩], true⟩
        ["reset_password"] (fun _ => true) 3 none).1.success = false ∧
    (agent_resolve
        ⟨"TCK-2", "Reset password", [⟨1, "Reset password", some "reset_password"⟩], true⟩
        ["reset_password"] (fun _ => true) 3 none).1.steps_executed = [] ∧
    (agent_resolve
        ⟨"TCK-2", "Reset password", [⟨1, "Reset password", some "reset_password"⟩], true⟩
        ["reset_password"] (fun _ => true) 3 none).1.escalation_reason
      = some "Actions require human approval" ∧
    (agent_resolve
        ⟨"TCK-2", "Reset password", [⟨1, "Reset password", some "reset_password"⟩], true⟩
        ["reset_password"] (fun _ => true) 3 none).2 = [] :=
  c10_approval_gate
    ⟨"TCK-2", "Reset password", [⟨1, "Reset password", some "reset_password"⟩], true⟩
    ["reset_password"] (fun _ => true) 3 none rfl

/-- `_execute_plan`'s loop only ever appends to the accumulated list of
executed steps. -/
theorem executePlanAux_prefix (registered : List String) (toolResult : PlanStep → Bool) :
    ∀ (steps : List PlanStep) (acc : List (PlanStep × Bool)),
      ∃ tail, executePlanAux registered toolResult steps acc = acc ++ tail := by
  intro steps
  induction steps with
  | nil => exact fun acc => ⟨[], (List.append_nil acc).symm⟩
  | cons stp rest ih =>
    intro acc
    simp only [executePlanAux]
    split
    · exact ⟨[], (List.append_nil acc).symm⟩
    · split
      · exact ⟨[(stp, stepOutcome registered toolResult stp)], rfl⟩
      · obtain ⟨tail, ht⟩ := ih (acc ++ [(stp, stepOutcome registered toolResult stp)])
        exact ⟨[(stp, stepOutcome registered toolResult stp)] ++ tail,
          by rw [ht, List.append_assoc]⟩

/-- Claim C8: a failed plan step is captured as a non-success step result
and does not abort the attempt — unless it is the step numbered 1, whose
failure stops execution of the remaining steps immediately; a failure of a
later step lets the remaining steps still execute. -/
theorem c8_plan_step_failure (registered : List String) (toolResult : PlanStep → Bool)
    (stp : PlanStep) (rest : List PlanStep) (acc : List (PlanStep × Bool))
    (hfail : stepOutcome registered toolResult stp = false) :
    (stp.step_number = 1 →
      execute_plan registered toolResult (stp :: rest) = [(stp, false)]) ∧
    (stp.step_number ≠ 1 → acc.length < RESOLUTION_MAX_ITERATIONS →
      executePlanAux registered toolResult (stp :: rest) acc
        = executePlanAux registered toolResult rest (acc ++ [(stp, false)])) ∧
    (stp.step_number ≠ 1 → acc.length < RESOLUTION_MAX_ITERATIONS →
      (stp, false) ∈ executePlanAux registered toolResult (stp :: rest) acc) := by
  have hcont : stp.step_number ≠ 1 → acc.length < RESOLUTION_MAX_ITERATIONS →
      executePlanAux registered toolResult (stp :: rest) acc
        = executePlanAux registered toolResult rest (acc ++ [(stp, false)]) := by
    intro hne hlen
    simp only [executePlanAux]
    rw [if_neg (Nat.not_le.mpr hlen), if_neg (by simp [hfail, hne]), hfail]
  refine ⟨?_, hcont, ?_⟩
  · intro h1
    simp only [execute_plan, executePlanAux]
    rw [if_neg (by simp [RESOLUTION_MAX_ITERATIONS]), if_pos (by simp [hfail, h1]), hfail]
    rfl
  · intro hne hlen
    rw [hcont hne hlen]
    obtain ⟨tail, ht⟩ :=
      executePlanAux_prefix registered toolResult rest (acc ++ [(stp, false)])
    rw [ht]
    simp

/-- Witness for C8: with the tool "unlock_account" registered and failing,
a failure of step number 1 truncates the attempt to that single step, while
a failure of step number 2 (after a successful no-tool step 1) still lets
step 3 execute. -/
theorem c8_plan_step_failure_witness :
    (execute_plan ["unlock_account"] (fun _ => false)
        [⟨1, "Unlock account", some "unlock_account"⟩, ⟨2, "Notify user", none⟩]
      = [(⟨1, "Unlock account", some "unlock_account"⟩, false)]) ∧
    ((⟨2, "Unlock account", some "unlock_account"⟩, false) ∈
      executePlanAux ["unlock_account"] (fun _ => false)
        [⟨2, "Unlock account", some "unlock_account"⟩, ⟨3, "Notify user", none⟩]
        [(⟨1, "Check status", none⟩, true)]) ∧
    (executePlanAux ["unlock_account"] (fun _ => false)
        [⟨2, "Unlock account", some "unlock_account"⟩, ⟨3, "Notify user", none⟩]
        [(⟨1, "Check status", none⟩, true)]
      = [(⟨1, "Check status", none⟩, true),
         (⟨2, "Unlock account", some "unlock_account"⟩, false),
         (⟨3, "Notify user", none⟩, true)]) :=
  ⟨(c8_plan_step_failure ["unlock_account"] (fun _ => false)
      ⟨1, "Unlock account", some "unlock_account"⟩ [⟨2, "Notify user", none⟩] []
      (by decide)).1 rfl,
   (c8_plan_step_failure ["unlock_account"] (fun _ => false)
      ⟨2, "Unlock account", some "unlock_account"⟩ [⟨3, "Notify user", none⟩]
      [(⟨1, "Check status", none⟩, true)]
      (by decide)).2.2 (by decide) (by decide),
   by decide⟩

/-- Accumulated form of `thinkLoop` when every attempt hits
`RateLimitError`: every remaining attempt sleeps its capacity backoff and
the loop finally raises the retries-exhausted exception. -/
theorem thinkLoop_all_rateLimit (outcomes : Nat → ApiOutcome)
    (hAll : ∀ i, outcomes i = .rateLimit) (n : Nat) :
    ∀ (d k : Nat) (acc : List Nat), n - k = d →
      thinkLoop outcomes n k acc
        = (acc ++ (List.range' k (n - k)).map backoff_wait,
           .error (.exception ("Failed after " ++ toString n ++ " retries"))) := by
  intro d
  induction d with
  | zero =>
    intro k acc hd
    have hk : ¬ k < n := by omega
    rw [thinkLoop, dif_neg hk, hd]
    simp
  | succ d ih =>
    intro k acc hd
    have hk : k < n := by omega
    rw [thinkLoop, dif_pos hk, hAll k]
    rw [ih (k + 1) (acc ++ [backoff_wait k]) (by omega)]
    rw [hd, show n - (k + 1) = d by omega]
    rw [List.range'_succ]
    simp

/-- Claim C4: in `BaseAgent.think`, each capacity-exceeded
(`RateLimitError`) attempt is followed by a sleep of
`min(2 ** attempt * 10, 60)` seconds (base 10, cap 60) before the retry,
and when all `max_retries` attempts fail this way the loop raises the
distinct retries-exhausted `Exception` — not the underlying
`RateLimitError`. -/
theorem c4_think_backoff_and_exhaustion (max_retries : Nat)
    (outcomes : Nat → ApiOutcome) (hAll : ∀ i, outcomes i = .rateLimit) :
    think max_retries outcomes
      = ((List.range max_retries).map backoff_wait,
         .error (.exception ("Failed after " ++ toString max_retries ++ " retries"))) ∧
    (∀ attempt, backoff_wait attempt = min (2 ^ attempt * 10) 60) ∧
    (think max_retries outcomes).2 ≠ .error .rateLimitError := by
  have h := thinkLoop_all_rateLimit outcomes hAll max_retries (max_retries - 0) 0 [] rfl
  have he : think max_retries outcomes
      = ((List.range max_retries).map backoff_wait,
         .error (.exception ("Failed after " ++ toString max_retries ++ " retries"))) := by
    rw [think, h]
    simp [List.range_eq_range']
  refine ⟨he, fun _ => rfl, ?_⟩
  rw [he]
  simp

/-- Witness for C4 with `max_retries = 3` and every attempt rate-limited:
sleeps are 10, 20, 40 seconds and the final failure is the exhausted
exception. -/
theorem c4_think_backoff_witness :
    think 3 (fun _ => ApiOutcome.rateLimit)
      = ([10, 20, 40], .error (.exception "Failed after 3 retries")) ∧
    (think 3 (fun _ => ApiOutcome.rateLimit)).2 ≠ .error .rateLimitError := by
  have h := c4_think_backoff_and_exhaustion 3 (fun _ => ApiOutcome.rateLimit) (fun i => rfl)
  exact ⟨h.1.trans rfl, h.2.2⟩

/-- Unfolding `acquireLoop` across a sleeping iteration. -/
theorem acquireLoop_sleep {cfg : LimiterConfig} (f : Nat) {now w : ℚ} {st st2 : LimiterState}
    {rs : String} {b : Bool} (h : acquire_check cfg now st = (.sleep w rs b, st2)) :
    acquireLoop cfg (f + 1) now st
      = ((w :: (acquireLoop cfg f (now + w) st2).1), (acquireLoop cfg f (now + w) st2).2) := by
  rw [acquireLoop, h]

/-- Unfolding `acquireLoop` at an admitting iteration. -/
theorem acquireLoop_admitted {cfg : LimiterConfig} (f : Nat) {now : ℚ} {st st2 : LimiterState}
    (h : acquire_check cfg now st = (.admitted, st2)) :
    acquireLoop cfg (f + 1) now st = ([], some st2) := by
  rw [acquireLoop, h]

/-- Claim C6, counterexample: with one reservation at time 0, a ceiling of
1 request/minute and `max_wait_seconds = 1`, the first loop iteration sleeps
the truncated maximum wait (1 s, breach logged); after that maximum wait the
re-check at time 1 does *not* let the call pass — it sleeps the maximum again.
With `max_wait_seconds = 30` the full loop sleeps 30 s twice and then 0.1 s
— three sleeps, 60.1 s in total — before admitting, instead of proceeding
after one maximum wait. -/
theorem c6_acquire_no_forced_admission_counterexample :
    acquire_check ⟨1, 100000, 1⟩ 0 ⟨[0], []⟩ = (.sleep 1 "rpm" true, ⟨[0], []⟩) ∧
    acquire_check ⟨1, 100000, 1⟩ 1 ⟨[0], []⟩ = (.sleep 1 "rpm" true, ⟨[0], []⟩) ∧
    acquireLoop ⟨1, 100000, 30⟩ 4 0 ⟨[0], []⟩ = ([30, 30, 1/10], some ⟨[601/10], []⟩) := by
  refine ⟨?_, ?_, ?_⟩
  · norm_num [acquire_check, cleanup_requests, cleanup_tokens, calculate_wait_time,
      usage_sum, max_def]
  · norm_num [acquire_check, cleanup_requests, cleanup_tokens, calculate_wait_time,
      usage_sum, max_def]
  · have s1 : acquire_check ⟨1, 100000, 30⟩ 0 ⟨[0], []⟩
        = (.sleep 30 "rpm" true, ⟨[0], []⟩) := by
      norm_num [acquire_check, cleanup_requests, cleanup_tokens, calculate_wait_time,
        usage_sum, max_def]
    have s2 : acquire_check ⟨1, 100000, 30⟩ (0 + 30) ⟨[0], []⟩
        = (.sleep 30 "rpm" false, ⟨[0], []⟩) := by
      norm_num [acquire_check, cleanup_requests, cleanup_tokens, calculate_wait_time,
        usage_sum, max_def]
    have s3 : acquire_check ⟨1, 100000, 30⟩ (0 + 30 + 30) ⟨[0], []⟩
        = (.sleep (1/10) "rpm" false, ⟨[0], []⟩) := by
      norm_num [acquire_check, cleanup_requests, cleanup_tokens, calculate_wait_time,
        usage_sum, max_def]
    have s4 : acquire_check ⟨1, 100000, 30⟩ (0 + 30 + 30 + 1/10) ⟨[0], []⟩
        = (.admitted, ⟨[601/10], []⟩) := by
      norm_num [acquire_check, cleanup_requests, cleanup_tokens, calculate_wait_time,
        usage_sum, max_def]
    rw [show (4 : Nat) = 3 + 1 from rfl, acquireLoop_sleep 3 s1,
        show (3 : Nat) = 2 + 1 from rfl, acquireLoop_sleep 2 s2,
        show (2 : Nat) = 1 + 1 from rfl, acquireLoop_sleep 1 s3,
        show (1 : Nat) = 0 + 1 from rfl, acquireLoop_admitted 0 s4]

/-- Claim C6 (amended): every sleep of a blocked `acquire` iteration is
bounded by `max_wait_seconds` (a longer computed wait is truncated to it,
with the breach logged in the request-rate branch), but after sleeping,
`acquire` loops and re-checks rather than proceeding: a call is admitted
only when, after pruning, both the request count and the usage sum are
strictly below their ceilings, so the bounded sleep can repeat. -/
theorem c6_acquire_wait_bound (cfg : LimiterConfig) (now : ℚ) (st : LimiterState) :
    (∀ (w : ℚ) (reason : String) (b : Bool) (st2 : LimiterState),
      acquire_check cfg now st = (.sleep w reason b, st2) → w ≤ cfg.max_wait_seconds) ∧
    (∀ st2 : LimiterState, acquire_check cfg now st = (.admitted, st2) →
      (cleanup_requests (now - 60) st.request_times).length < cfg.requests_per_minute ∧
      usage_sum (cleanup_tokens (now - 60) st.token_usage) < cfg.tokens_per_minute) := by
  constructor
  · intro w reason b st2 h
    simp only [acquire_check] at h
    by_cases h1 : cfg.requests_per_minute ≤ (cleanup_requests (now - 60) st.request_times).length
    · rw [if_pos h1] at h
      cases hr : cleanup_requests (now - 60) st.request_times with
      | nil => rw [hr] at h; simp at h
      | cons t ts =>
        rw [hr] at h
        dsimp only at h
        by_cases h2 : cfg.max_wait_seconds < calculate_wait_time t now
        · rw [if_pos h2] at h
          simp only [Prod.mk.injEq, AcquireAction.sleep.injEq] at h
          rw [← h.1.1]
        · rw [if_neg h2] at h
          simp only [Prod.mk.injEq, AcquireAction.sleep.injEq] at h
          rw [← h.1.1]
          exact le_of_not_lt h2
    · rw [if_neg h1] at h
      by_cases h3 : cfg.tokens_per_minute ≤ usage_sum (cleanup_tokens (now - 60) st.token_usage)
      · rw [if_pos h3] at h
        by_cases h2 : cfg.max_wait_seconds
            < calculate_wait_time
                (match cleanup_tokens (now - 60) st.token_usage with
                  | [] => now
                  | e :: _ => e.1) now
        · rw [if_pos h2] at h
          simp only [Prod.mk.injEq, AcquireAction.sleep.injEq] at h
          rw [← h.1.1]
        · rw [if_neg h2] at h
          simp only [Prod.mk.injEq, AcquireAction.sleep.injEq] at h
          rw [← h.1.1]
          exact le_of_not_lt h2
      · rw [if_neg h3] at h
        simp at h
  · intro st2 h
    simp only [acquire_check] at h
    by_cases h1 : cfg.requests_per_minute ≤ (cleanup_requests (now - 60) st.request_times).length
    · rw [if_pos h1] at h
      cases hr : cleanup_requests (now - 60) st.request_times with
      | nil => rw [hr] at h; simp at h
      | cons t ts =>
        rw [hr] at h
        dsimp only at h
        by_cases h2 : cfg.max_wait_seconds < calculate_wait_time t now
        · rw [if_pos h2] at h; simp at h
        · rw [if_neg h2] at h; simp at h
    · rw [if_neg h1] at h
      by_cases h3 : cfg.tokens_per_minute ≤ usage_sum (cleanup_tokens (now - 60) st.token_usage)
      · rw [if_pos h3] at h
        by_cases h2 : cfg.max_wait_seconds
            < calculate_wait_time
                (match cleanup_tokens (now - 60) st.token_usage with
                  | [] => now
                  | e :: _ => e.1) now
        · rw [if_pos h2] at h; simp at h
        · rw [if_neg h2] at h; simp at h
      · exact ⟨Nat.lt_of_not_le h1, Nat.lt_of_not_le h3⟩

/-- Witness for C6 (amended): the truncated 1-second sleep observed in the
counterexample scenario is within the configured maximum wait. -/
theorem c6_acquire_wait_bound_witness :
    (1 : ℚ) ≤ (⟨1, 100000, 1⟩ : LimiterConfig).max_wait_seconds :=
  (c6_acquire_wait_bound ⟨1, 100000, 1⟩ 0 ⟨[0], []⟩).1 1 "rpm" true ⟨[0], []⟩
    (by norm_num [acquire_check, cleanup_requests, cleanup_tokens, calculate_wait_time,
      usage_sum, max_def])

/-- Claim C1, counterexample: a run that reaches finalize with no
remediation result and no escalation flag does not get the terminal status
Failed (nor any status): `_finalize_node` calls `.get` on the `None`
resolution result and raises `AttributeError`.  The whole-run instance: a
triage decision of `information_request` routes through the request-info
node straight to finalize, and the run errors out instead of finalizing. -/
theorem c1_no_result_no_flag_counterexample :
    finalize_status false none
      = .error (.attributeError "NoneType object has no attribute get") ∧
    finalize_status false none ≠ .ok WorkflowStatus.failed ∧
    finalize_status false none ≠ .ok WorkflowStatus.completed ∧
    orchestrator_run envInfoRequest 5 20
      = .error (.attributeError "NoneType object has no attribute get") := by
  refine ⟨rfl, by simp [finalize_status], by simp [finalize_status], rfl⟩

/-- Claim C1 (amended): finalize computes Escalating whenever the escalation
flag is set; with the flag unset and a remediation result present the status
is Completed iff the result reports success, and Failed iff it reports
failure — so Completed holds iff the result reports success and the flag is
unset, over every state where finalize produces a status at all.  But with
no remediation result and no flag, finalize raises `AttributeError` and
produces no terminal status whatsoever (in particular such a run does not
end Completed — nor Failed). -/
theorem c1_finalize_terminal_status :
    (∀ rr, finalize_status true rr = .ok .escalating) ∧
    (∀ rr, finalize_status false (some rr)
        = .ok (if rr.success then .completed else .failed)) ∧
    (∀ (rh : Bool) (rr : Option ResolutionResult) (st : WorkflowStatus),
      finalize_status rh rr = .ok st →
        (st = .completed ↔ rh = false ∧ ∃ r, rr = some r ∧ r.success = true)) ∧
    (∀ st : WorkflowStatus, finalize_status false none ≠ .ok st) := by
  refine ⟨fun rr => rfl, ?_, ?_, ?_⟩
  · intro rr
    cases hb : rr.success <;> simp [finalize_status, hb]
  · intro rh rr st h
    cases rh with
    | true =>
      simp only [finalize_status, if_true] at h
      rw [← Except.ok.inj h]
      simp
    | false =>
      cases rr with
      | none => simp [finalize_status] at h
      | some r =>
        cases hb : r.success with
        | true =>
          simp only [finalize_status, hb, if_false, Bool.false_eq_true] at h
          rw [← Except.ok.inj h]
          simp [hb]
        | false =>
          simp only [finalize_status, hb, if_true] at h
          rw [← Except.ok.inj h]
          simp [hb]
  · intro st
    simp [finalize_status]

/-- Witness for C1 (amended): the Completed characterization instantiated at
an unset flag and a successful remediation result. -/
theorem c1_finalize_terminal_status_witness :
    WorkflowStatus.completed = WorkflowStatus.completed ↔
      false = false ∧ ∃ r, some rrOk = some r ∧ r.success = true :=
  c1_finalize_terminal_status.2.2.1 false (some rrOk) .completed rfl

/-- Claim C2, counterexample: a failure raised by the triage stage is not
caught at the node boundary (there is no try/except anywhere in
`orchestrator.py`): it propagates out of the node, through the graph, and
escapes `run()` unchanged as an unhandled fault, so no failure entry is
recorded and the run reaches no terminal state. -/
theorem c2_stage_failure_escapes_counterexample :
    step envTriageRaises .triage (initState 5)
      = .error (.exception "triage agent failure") ∧
    orchestrator_run envTriageRaises 5 20
      = .error (.exception "triage agent failure") := by
  exact ⟨rfl, rfl⟩

/-- Claim C2 (amended): the orchestrator performs no node-boundary exception
handling: any failure raised by the triage stage invocation propagates out
of `run()` unchanged, no failure entry is recorded, and no terminal state
(Failed or otherwise) is produced for the run. -/
theorem c2_stage_failure_propagates (env : Env) (e : PyError) (M fuel : Nat)
    (htr : env.triageOutcome = .error e) (hf : 1 ≤ fuel) :
    step env .triage (initState M) = .error e ∧
    orchestrator_run env M fuel = .error e := by
  have hstep : step env .triage (initState M) = .error e := by
    simp [step, htr]
  refine ⟨hstep, ?_⟩
  cases fuel with
  | zero => omega
  | succ f =>
    rw [orchestrator_run, runGraph, hstep]

/-- Witness for C2 (amended) on the concrete raising-triage scenario. -/
theorem c2_stage_failure_propagates_witness :
    step envTriageRaises .triage (initState 3)
      = .error (.exception "triage agent failure") ∧
    orchestrator_run envTriageRaises 3 30
      = .error (.exception "triage agent failure") :=
  c2_stage_failure_propagates envTriageRaises (.exception "triage agent failure") 3 30
    rfl (by decide)

/-- A failed attempt with the retry bound not yet reached routes the
resolve node back to itself. -/
theorem step_resolve_retry (env : Env) (s : OState) (rr : ResolutionResult)
    (hrr : env.resolveOutcomes s.iteration_count = .ok rr) (hsf : rr.success = false)
    (hlt : s.iteration_count + 1 < s.max_iterations) :
    step env .resolve s = .ok (some Node.resolve, resolve_node rr s) := by
  simp [step, hrr, route_after_resolution, resolve_node, hsf, hlt, resolveEdges]

/-- A failed attempt at the retry bound routes the resolve node to
escalate. -/
theorem step_resolve_escalate (env : Env) (s : OState) (rr : ResolutionResult)
    (hrr : env.resolveOutcomes s.iteration_count = .ok rr) (hsf : rr.success = false)
    (hge : ¬ s.iteration_count + 1 < s.max_iterations) :
    step env .resolve s = .ok (some Node.escalate, resolve_node rr s) := by
  simp [step, hrr, route_after_resolution, resolve_node, hsf, hge, resolveEdges]

/-- A triage decision of `auto_resolve` routes to the resolve node. -/
theorem step_triage_auto (env : Env) (dump : TriageDump) (s : OState)
    (h : env.triageOutcome = .ok dump) (hd : dump.decision = some "auto_resolve") :
    step env .triage s = .ok (some Node.resolve, triage_node dump s) := by
  simp [step, h, route_after_triage, triage_node, hd, routing_get, triageEdges]

/-- When every remediation attempt fails, running the graph from the
resolve node with `d` attempts left before the bound ends at the terminal
state reached through escalate and finalize, with the iteration count driven
exactly to the bound. -/
theorem resolve_all_fail_loop (env : Env)
    (hfail : ∀ i, ∃ rr, env.resolveOutcomes i = .ok rr ∧ rr.success = false) :
    ∀ (d : Nat) (s : OState) (fuel : Nat), 1 ≤ d →
      s.iteration_count + d = s.max_iterations → d + 3 ≤ fuel →
      ∃ t, runGraph env fuel .resolve s = .ok (some t) ∧
        t.iteration_count = s.max_iterations ∧
        t.status = WorkflowStatus.escalating.val ∧
        t.requires_human = true := by
  intro d
  induction d with
  | zero => intro s fuel h1; exact absurd h1 (by omega)
  | succ d ih =>
    intro s fuel h1 h2 h3
    obtain ⟨rr, hrr, hsf⟩ := hfail s.iteration_count
    cases fuel with
    | zero => omega
    | succ f =>
      by_cases hd : 1 ≤ d
      · have hlt : s.iteration_count + 1 < s.max_iterations := by omega
        rw [runGraph, step_resolve_retry env s rr hrr hsf hlt]
        dsimp only
        obtain ⟨t, ht, hti, hts, hth⟩ :=
          ih (resolve_node rr s) f hd
            (show s.iteration_count + 1 + d = s.max_iterations by omega)
            (by omega)
        exact ⟨t, ht, hti, hts, hth⟩
      · have hd0 : d = 0 := by omega
        subst hd0
        have hge : ¬ s.iteration_count + 1 < s.max_iterations := by omega
        rw [runGraph, step_resolve_escalate env s rr hrr hsf hge]
        dsimp only
        cases f with
        | zero => omega
        | succ f2 =>
          rw [runGraph,
            show step env .escalate (resolve_node rr s)
              = .ok (some .finalize, escalate_node (resolve_node rr s)) from rfl]
          dsimp only
          cases f2 with
          | zero => omega
          | succ f3 =>
            rw [runGraph,
              show step env .finalize (escalate_node (resolve_node rr s))
                = .ok (none,
                    { escalate_node (resolve_node rr s) with
                        status := WorkflowStatus.escalating.val }) from rfl]
            dsimp only
            refine ⟨_, rfl, ?_, rfl, rfl⟩
            show s.iteration_count + 1 = s.max_iterations
            omega

/-- Claim C3: with bound `max_iterations = M ≥ 1`, each execution of the
resolve node increments `iteration_count` by exactly one, the retry check is
strict (`iteration_count < M` retries, `iteration_count = M` escalates,
never retries), and a run whose remediation attempts all fail makes exactly
`M` attempts — its final iteration count is `M` — and then escalates. -/
theorem c3_resolution_retry_bound (env : Env) (M fuel : Nat) (hM : 1 ≤ M)
    (htr : env.triageOutcome = .ok ⟨some "auto_resolve"⟩)
    (hfail : ∀ i, ∃ rr, env.resolveOutcomes i = .ok rr ∧ rr.success = false)
    (hfuel : M + 4 ≤ fuel) :
    (∃ r, orchestrator_run env M fuel = .ok (some r) ∧
      r.iteration_count = M ∧
      r.status = WorkflowStatus.escalating.val ∧
      r.escalated = true) ∧
    (∀ (rr : ResolutionResult) (s : OState),
      (resolve_node rr s).iteration_count = s.iteration_count + 1) ∧
    (∀ (rr : ResolutionResult) (it : Nat), rr.success = false →
      route_after_resolution (some rr) it M
        = .ok (if it < M then "retry" else "escalate")) ∧
    (∀ rr : ResolutionResult, rr.success = false →
      route_after_resolution (some rr) M M = .ok "escalate") := by
  refine ⟨?_, fun rr s => rfl, ?_, ?_⟩
  · cases fuel with
    | zero => omega
    | succ f =>
      rw [orchestrator_run, runGraph,
        step_triage_auto env ⟨some "auto_resolve"⟩ (initState M) htr rfl]
      dsimp only
      obtain ⟨t, ht, hti, hts, hth⟩ :=
        resolve_all_fail_loop env hfail M
          (triage_node ⟨some "auto_resolve"⟩ (initState M)) f hM
          (Nat.zero_add M) (by omega)
      rw [ht]
      exact ⟨_, rfl, hti, hts, hth⟩
  · intro rr it hsf
    simp [route_after_resolution, hsf]
  · intro rr hsf
    simp [route_after_resolution, hsf]

/-- Witness for C3: `max_iterations = 2`, both attempts fail; the run makes
exactly 2 attempts and escalates. -/
theorem c3_resolution_retry_bound_witness :
    ((1 : Nat) ≤ 2 ∧ (2 : Nat) + 4 ≤ 20) ∧
    (∃ r, orchestrator_run envAllFail 2 20 = .ok (some r) ∧
      r.iteration_count = 2 ∧
      r.status = WorkflowStatus.escalating.val ∧
      r.escalated = true) :=
  ⟨⟨by decide, by decide⟩,
   (c3_resolution_retry_bound envAllFail 2 20 (by decide) rfl
      (fun i => ⟨rrFail, rfl, rfl⟩) (by decide)).1⟩

end AgentOps
